import Mathlib

/-!
Verification development for the firmware system layer.

Shallow embedding of

* `system/src/system_sleep.cpp` : `system_sleep`, `system_sleep_pin`;
* `system/inc/system_threading.h` : `ActiveObjectBase::Item`, the thread
  guards `isStarted` / `isCurrentThread`, `invoke_future`,
  `ActiveObjectQueue::take` / `put` and the call-site guards
  `SYSTEM_THREAD_CONTEXT_RESULT` / `SYSTEM_THREAD_CONTEXT_SYNC`.

Code with side effects is embedded as a function that returns the list of
external calls it makes, in program order, next to the new state.
Pointers are natural numbers, `NULL` is `0`.
-/

namespace Firmware

/-! ## Sleep module (`system_sleep.cpp`) -/

/-- Sleep mode argument of `system_sleep`. The enumeration is declared in
`system_sleep.h`; the source names the enumerators `SLEEP_MODE_WLAN` and
`SLEEP_MODE_DEEP`. `unlisted raw` stands for any other value an argument of
the enumeration type can carry: the `switch` has no `default` label. -/
inductive Spark_Sleep_TypeDef where
  | SLEEP_MODE_WLAN
  | SLEEP_MODE_DEEP
  | unlisted (raw : Nat)
  deriving DecidableEq, Repr

/-- Argument of `LED_Off`; the source only ever passes `LED_RGB`. -/
inductive Led where
  | LED_RGB
  deriving DecidableEq, Repr

/-- Calls that the sleep module makes into the HAL and the network layer. -/
inductive HalCall where
  | HAL_RTC_Set_UnixAlarm (value : Int)
  | network_off (a b c : Nat) (reserved : Nat)
  | HAL_Core_Enter_Standby_Mode
  | LED_Off (led : Led)
  | HAL_Core_Enter_Stop_Mode (wakeUpPin edgeTriggerMode : Nat)
  deriving DecidableEq, Repr

/-- The null pointer. -/
def NULL : Nat := 0

/-- Embedding of `system_sleep(sleepMode, seconds, param, reserved)`:
`if (seconds) HAL_RTC_Set_UnixAlarm((time_t) seconds);` followed by the
`switch` over `sleepMode`. `seconds` is a `long`; the cast to `time_t`
keeps the value. `param` and `reserved` are not read. -/
def system_sleep (sleepMode : Spark_Sleep_TypeDef) (seconds : Int)
    (_param : Nat) (_reserved : Nat) : List HalCall :=
  (if seconds ≠ 0 then [HalCall.HAL_RTC_Set_UnixAlarm seconds] else []) ++
  (match sleepMode with
   | Spark_Sleep_TypeDef.SLEEP_MODE_WLAN => [HalCall.network_off 0 0 0 NULL]
   | Spark_Sleep_TypeDef.SLEEP_MODE_DEEP => [HalCall.HAL_Core_Enter_Standby_Mode]
   | Spark_Sleep_TypeDef.unlisted _ => [])

/-- Embedding of `system_sleep_pin(wakeUpPin, edgeTriggerMode, seconds, param,
reserved)`: `if (seconds>0) HAL_RTC_Set_UnixAlarm((time_t) seconds);` then
`LED_Off(LED_RGB); HAL_Core_Enter_Stop_Mode(wakeUpPin, edgeTriggerMode);`. -/
def system_sleep_pin (wakeUpPin edgeTriggerMode : Nat) (seconds : Int)
    (_param : Nat) (_reserved : Nat) : List HalCall :=
  (if seconds > 0 then [HalCall.HAL_RTC_Set_UnixAlarm seconds] else []) ++
  [HalCall.LED_Off Led.LED_RGB,
   HalCall.HAL_Core_Enter_Stop_Mode wakeUpPin edgeTriggerMode]

/-- Recogniser of a call of `network_off`. -/
def HalCall.isNetworkOff : HalCall → Bool
  | HalCall.network_off _ _ _ _ => true
  | _ => false

/-- Recogniser of a call of `HAL_Core_Enter_Standby_Mode`. -/
def HalCall.isStandby : HalCall → Bool
  | HalCall.HAL_Core_Enter_Standby_Mode => true
  | _ => false

/-- Recogniser of a call of `HAL_Core_Enter_Stop_Mode`. -/
def HalCall.isStop : HalCall → Bool
  | HalCall.HAL_Core_Enter_Stop_Mode _ _ => true
  | _ => false

/-- A call that disables the radio or enters a power mode. -/
def HalCall.isModeEntry (c : HalCall) : Bool :=
  c.isNetworkOff || c.isStandby || c.isStop

/-- The values passed to the wake alarm setter, in call order. -/
def alarmValues : List HalCall → List Int
  | [] => []
  | HalCall.HAL_RTC_Set_UnixAlarm v :: rest => v :: alarmValues rest
  | _ :: rest => alarmValues rest

/-- Real-time clock: the current unix time and the programmed wake alarm, if
any. -/
structure Rtc where
  now : Int
  alarm : Option Int
  deriving DecidableEq, Repr

/-- Modelled from the spec: the alarm setter of the real-time-clock
collaborator (its body is in the HAL, not in the system layer). The sleep
functions hand it the delay `seconds`, and the specification asks for an alarm
at "now + seconds": the setter programs the alarm for the current time plus
the value it is given. -/
def HAL_RTC_Set_UnixAlarm (value : Int) (rtc : Rtc) : Rtc :=
  { rtc with alarm := some (rtc.now + value) }

/-- Calls that a work item makes when it is invoked or disposed, and the run
of a task closure. `call function arg` is `function(arg)`, `free ptr` is the
C library call `free(ptr)`, `run task` is the execution of a closure. -/
inductive Effect where
  | call (function : Nat) (arg : Nat)
  | free (ptr : Nat)
  | run (task : Nat)
  deriving DecidableEq, Repr

/-- A call that releases a block of memory: `free(p)` with `p` not null
(`free(NULL)` does nothing). -/
def Effect.releases : Effect → Bool
  | Effect.free ptr => decide (ptr ≠ NULL)
  | _ => false

/-- Embedding of `struct Item`: `function` (`active_fn_t`, `NULL` when none),
`arg` (`void*`) and `task` (`std::function<void(void)>`, `none` when empty;
a closure is named by a number). -/
structure Item where
  function : Nat
  arg : Nat
  task : Option Nat
  deriving DecidableEq, Repr

/-- Constructor `Item() : function(NULL), arg(NULL)`. -/
def Item.new : Item :=
  { function := NULL, arg := NULL, task := none }

/-- Constructor `Item(active_fn_t f, void* a) : function(f), arg(a)`. -/
def Item.new_fn (f : Nat) (a : Nat) : Item :=
  { function := f, arg := a, task := none }

/-- Constructor `Item(task_t&& _task, void* _arg) : arg(_arg), task(_task)`.
The member `function` is absent from the initialiser list, so it keeps
whatever the storage of the item held before: `indeterminate`. -/
def Item.new_task (indeterminate : Nat) (_task : Option Nat) (_arg : Nat) : Item :=
  { function := indeterminate, arg := _arg, task := _task }

/-- Embedding of `Item::invoke`: `if (function) { function(arg); }`. The item
is returned next to the calls made. -/
def Item.invoke (self : Item) : Item × List Effect :=
  if self.function ≠ NULL then (self, [Effect.call self.function self.arg])
  else (self, [])

/-- Embedding of `Item::dispose`: `free(arg); function = NULL; arg = NULL;`. -/
def Item.dispose (self : Item) : Item × List Effect :=
  ({ self with function := NULL, arg := NULL }, [Effect.free self.arg])

/-- The sequence `item.invoke(); item.dispose();` on one item. -/
def Item.invoke_dispose (self : Item) : Item × List Effect :=
  let r1 := self.invoke
  let r2 := r1.1.dispose
  (r2.1, r1.2 ++ r2.2)

/-! ## Active objects -/

/-- Embedding of `ActiveObjectConfiguration`. -/
structure ActiveObjectConfiguration where
  background_task : Option Nat
  stack_size : Nat
  deriving DecidableEq, Repr

/-- Embedding of the state of `ActiveObjectBase` that the guards read:
the native handle of `_thread` and the flag `started`. -/
structure ActiveObjectBase where
  configuration : ActiveObjectConfiguration
  _thread : Nat
  started : Bool
  deriving DecidableEq, Repr

/-- Embedding of `isCurrentThread`: `__gthread_equal(_thread.native_handle(),
__gthread_self())`; `current` is the handle of the calling thread. -/
def ActiveObjectBase.isCurrentThread (self : ActiveObjectBase) (current : Nat) : Bool :=
  decide (self._thread = current)

/-- Embedding of `isStarted`: `return started;`. -/
def ActiveObjectBase.isStarted (self : ActiveObjectBase) : Bool :=
  self.started

/-- Embedding of `ActiveObjectQueue`: the base object and the content of the
native queue, oldest item first. -/
structure ActiveObjectQueue extends ActiveObjectBase where
  queue : List Item
  deriving DecidableEq, Repr

/-- Modelled from the spec: the native enqueue primitive
`os_queue_put(queue, &item, delay)` of the concurrency HAL (its body is not in
the system layer). Its return code `rc` is given from outside: return code
`0` means the item was appended, any other code means nothing was appended. -/
def os_queue_put (rc : Int) (queue : List Item) (item : Item) : Int × List Item :=
  (rc, if rc = 0 then queue ++ [item] else queue)

/-- Modelled from the spec: the native dequeue primitive
`os_queue_take(queue, &item, delay)` of the concurrency HAL (its body is not in
the system layer). Its return code is given from outside: code `0` with a
non-empty queue moves the oldest item into `item`. -/
def os_queue_take (rc : Int) (queue : List Item) (item : Item) : Int × List Item × Item :=
  match queue with
  | first :: rest => if rc = 0 then (rc, rest, first) else (rc, queue, item)
  | [] => (rc, queue, item)

/-- Embedding of `ActiveObjectQueue::take`:
`return os_queue_take(queue, &item, 100)==0;`. -/
def ActiveObjectQueue.take (rc : Int) (self : ActiveObjectQueue) (item : Item) :
    Bool × ActiveObjectQueue × Item :=
  let r := os_queue_take rc self.queue item
  (decide (r.1 = 0), { self with queue := r.2.1 }, r.2.2)

/-- Outcome of `ActiveObjectQueue::put`: the queue on return and the number
of calls of `os_queue_put` made. -/
structure PutResult where
  queue : List Item
  attempts : Nat
  deriving DecidableEq, Repr

/-- Loop of `ActiveObjectQueue::put`:
`while (!os_queue_put(queue, &item, CONCURRENT_WAIT_FOREVER)) {}`.
`outcomes` lists the return codes of the successive calls of `os_queue_put`.
The loop body runs again when `!rc` is true, that is when `rc` is `0`.
`none`: the loop is still running when the listed outcomes are used up. -/
def putLoop : List Int → List Item → Item → Nat → Option PutResult
  | [], _, _, _ => none
  | rc :: rest, queue, item, n =>
    let r := os_queue_put rc queue item
    if r.1 = 0 then putLoop rest r.2 item (n + 1)
    else some { queue := r.2, attempts := n + 1 }

/-- Embedding of `ActiveObjectQueue::put`. -/
def ActiveObjectQueue.put (outcomes : List Int) (self : ActiveObjectQueue) (item : Item) :
    Option PutResult :=
  putLoop outcomes self.queue item 0

/-! ## Futures and the call-site guards -/

/-- Shared state of a `std::packaged_task` / `std::future` pair. -/
inductive SharedState (R : Type) where
  | not_ready
  | value (r : R)
  | broken_promise
  deriving DecidableEq, Repr

/-- A `std::packaged_task<R(void)>`: the stored callable and its shared state. -/
structure packaged_task (R : Type) where
  fn : Unit → R
  state : SharedState R

/-- Construction `std::packaged_task<R(void)> task(fn)`. -/
def packaged_task.new {R : Type} (fn : Unit → R) : packaged_task R :=
  { fn := fn, state := SharedState.not_ready }

/-- Destruction of a packaged task: a shared state that is not ready is
abandoned, the future is made ready with the error `broken_promise`. -/
def packaged_task.destroy {R : Type} (task : packaged_task R) : SharedState R :=
  match task.state with
  | SharedState.not_ready => SharedState.broken_promise
  | s => s

/-- Result of `future.get()`: `none` when the call never returns (state not
ready and nobody left to make it ready), `some (Except.ok r)` when the value
`r` is delivered, `some (Except.error ())` when `std::future_error` is raised. -/
def future_get {R : Type} : SharedState R → Option (Except Unit R)
  | SharedState.not_ready => none
  | SharedState.value r => some (Except.ok r)
  | SharedState.broken_promise => some (Except.error ())

/-- Embedding of `ActiveObjectBase::invoke_future`:
`std::packaged_task<R(void)> task(fn); //put(Item(task)); return task.get_future();`
The `put` is commented out, so the object is returned unchanged; `task` is
a local and is destroyed on return. The result is the shared state that the
returned future observes. -/
def ActiveObjectQueue.invoke_future {R : Type} (self : ActiveObjectQueue) (fn : Unit → R) :
    SharedState R × ActiveObjectQueue :=
  let task := packaged_task.new fn
  (task.destroy, self)

/-- Kinds of argument expression at a call of `invoke`: a pointer to a
function without parameters (`void (*)()`), a pointer to a function of one
pointer (`r (*)(arg*)`), a pointer to an object (`arg*`), an integer
(`size_t`), and a character array (`const char[]`, the type of `__func__`). -/
inductive ArgType where
  | function_pointer_nullary
  | function_pointer_unary
  | object_pointer
  | integer
  | char_array
  deriving DecidableEq, Repr

/-- The three overloads of `ActiveObjectBase::invoke`:
`invoke(r (*fn)(arg* a), arg* value, size_t size)`,
`invoke(r (*fn)(arg* a), arg* value)` and `invoke(void (*fn)())`. -/
inductive InvokeOverload where
  | invoke_fn_value_size
  | invoke_fn_value
  | invoke_fn
  deriving DecidableEq, Repr

/-- Overload of `invoke` that a call with the given arguments selects; `none`
when no overload accepts them and the call is ill-formed. A character array
converts to no pointer to function. -/
def invoke_overload : List ArgType → Option InvokeOverload
  | [ArgType.function_pointer_unary, ArgType.object_pointer, ArgType.integer] =>
    some InvokeOverload.invoke_fn_value_size
  | [ArgType.function_pointer_unary, ArgType.object_pointer] =>
    some InvokeOverload.invoke_fn_value
  | [ArgType.function_pointer_nullary] => some InvokeOverload.invoke_fn
  | _ => none

/-- Operations on the System thread object made by a call-site guard. -/
inductive Op where
  | invoke (overload : InvokeOverload)
  | invoke_future
  | future_wait
  | future_get
  deriving DecidableEq, Repr

/-- Control flow after a call-site guard: `fall_through` when the guard
condition is false and the enclosing function body goes on, on the calling
thread; `returned r` when the `return` inside the guard was executed. -/
inductive Control (R : Type) where
  | fall_through
  | returned (r : R)
  deriving DecidableEq, Repr

/-- Embedding of `SYSTEM_THREAD_CONTEXT_FN0(fn)`: `SystemThread.invoke(fn);`
with an argument of the given kind; `none` when the call is ill-formed. -/
def SYSTEM_THREAD_CONTEXT_FN0 (fn : ArgType) : Option InvokeOverload :=
  invoke_overload [fn]

/-- Embedding of `SYSTEM_THREAD_CONTEXT_RESULT(result)`:
`if (SystemThread.isStarted() && !SystemThread.isCurrentThread())
 { SYSTEM_THREAD_CONTEXT_FN0(__func__); return result; }`.
The argument `__func__` is a character array. `none`: the expansion is
ill-formed, the enclosing function does not compile and has no behaviour. -/
def SYSTEM_THREAD_CONTEXT_RESULT {R : Type} (SystemThread : ActiveObjectQueue) (current : Nat)
    (result : R) : Option (Control R × List Op) :=
  match SYSTEM_THREAD_CONTEXT_FN0 ArgType.char_array with
  | none => none
  | some overload =>
    some (if SystemThread.isStarted && !SystemThread.isCurrentThread current then
        (Control.returned result, [Op.invoke overload])
      else (Control.fall_through, []))

/-- Embedding of `SYSTEM_THREAD_CONTEXT_SYNC(fn)`:
`if (SystemThread.isStarted() && !SystemThread.isCurrentThread())
 { auto lambda = [=]() { return (fn); };
   auto future = SystemThread.invoke_future(FFL(lambda));
   future.wait(); return future.get(); }`. -/
def SYSTEM_THREAD_CONTEXT_SYNC {R : Type} (SystemThread : ActiveObjectQueue) (current : Nat)
    (fn : Unit → R) : Control (Option (Except Unit R)) × List Op × ActiveObjectQueue :=
  if SystemThread.isStarted && !SystemThread.isCurrentThread current then
    let r := SystemThread.invoke_future fn
    (Control.returned (future_get r.1), [Op.invoke_future, Op.future_wait, Op.future_get], r.2)
  else (Control.fall_through, [], SystemThread)

/-! ## Sleep module: theorems -/

/-- Calls made by `system_sleep` in the `SLEEP_MODE_WLAN` case. -/
theorem system_sleep_WLAN_trace (seconds : Int) (param reserved : Nat) :
    system_sleep Spark_Sleep_TypeDef.SLEEP_MODE_WLAN seconds param reserved =
      (if seconds ≠ 0 then [HalCall.HAL_RTC_Set_UnixAlarm seconds] else []) ++
        [HalCall.network_off 0 0 0 NULL] := rfl

/-- Calls made by `system_sleep` in the `SLEEP_MODE_DEEP` case. -/
theorem system_sleep_DEEP_trace (seconds : Int) (param reserved : Nat) :
    system_sleep Spark_Sleep_TypeDef.SLEEP_MODE_DEEP seconds param reserved =
      (if seconds ≠ 0 then [HalCall.HAL_RTC_Set_UnixAlarm seconds] else []) ++
        [HalCall.HAL_Core_Enter_Standby_Mode] := rfl

/-- C4: for every `seconds`, `param` and `reserved`, `system_sleep` with
`SLEEP_MODE_WLAN` calls `network_off` exactly once and enters neither standby
nor stop mode; with `SLEEP_MODE_DEEP` it calls `HAL_Core_Enter_Standby_Mode`
exactly once and does not call `network_off`. -/
theorem system_sleep_mode_dispatch (seconds : Int) (param reserved : Nat) :
    ((system_sleep Spark_Sleep_TypeDef.SLEEP_MODE_WLAN seconds param reserved).countP
        HalCall.isNetworkOff = 1 ∧
      (system_sleep Spark_Sleep_TypeDef.SLEEP_MODE_WLAN seconds param reserved).countP
        HalCall.isStandby = 0 ∧
      (system_sleep Spark_Sleep_TypeDef.SLEEP_MODE_WLAN seconds param reserved).countP
        HalCall.isStop = 0) ∧
    ((system_sleep Spark_Sleep_TypeDef.SLEEP_MODE_DEEP seconds param reserved).countP
        HalCall.isStandby = 1 ∧
      (system_sleep Spark_Sleep_TypeDef.SLEEP_MODE_DEEP seconds param reserved).countP
        HalCall.isNetworkOff = 0) := by
  rw [system_sleep_WLAN_trace, system_sleep_DEEP_trace]
  by_cases h : seconds = 0 <;>
    simp [h, HalCall.isNetworkOff, HalCall.isStandby, HalCall.isStop]

/-- C6: for every `wakeUpPin`, `edgeTriggerMode`, `seconds`, `param` and
`reserved`, `system_sleep_pin` calls `HAL_Core_Enter_Stop_Mode` exactly once,
with `wakeUpPin` and `edgeTriggerMode` unchanged and in that order, and calls
neither `HAL_Core_Enter_Standby_Mode` nor `network_off`. -/
theorem system_sleep_pin_enters_stop_mode (wakeUpPin edgeTriggerMode : Nat) (seconds : Int)
    (param reserved : Nat) :
    (system_sleep_pin wakeUpPin edgeTriggerMode seconds param reserved).filter
        HalCall.isModeEntry = [HalCall.HAL_Core_Enter_Stop_Mode wakeUpPin edgeTriggerMode] ∧
    (system_sleep_pin wakeUpPin edgeTriggerMode seconds param reserved).countP
        HalCall.isStop = 1 ∧
    (system_sleep_pin wakeUpPin edgeTriggerMode seconds param reserved).countP
        HalCall.isStandby = 0 ∧
    (system_sleep_pin wakeUpPin edgeTriggerMode seconds param reserved).countP
        HalCall.isNetworkOff = 0 := by
  by_cases h : seconds > 0 <;>
    simp [system_sleep_pin, h, HalCall.isModeEntry, HalCall.isNetworkOff, HalCall.isStandby,
      HalCall.isStop]

/-- C10: `system_sleep` passes `seconds` to the alarm setter exactly when
`seconds` is not zero (negative values included), `system_sleep_pin` exactly
when `seconds > 0`; with `seconds = 0` neither sets an alarm; and for
`seconds = -1` the first sets an alarm while the second does not. -/
theorem alarm_conditions_differ :
    (∀ (sleepMode : Spark_Sleep_TypeDef) (seconds : Int) (param reserved : Nat),
      alarmValues (system_sleep sleepMode seconds param reserved) =
        if seconds ≠ 0 then [seconds] else []) ∧
    (∀ (wakeUpPin edgeTriggerMode : Nat) (seconds : Int) (param reserved : Nat),
      alarmValues (system_sleep_pin wakeUpPin edgeTriggerMode seconds param reserved) =
        if seconds > 0 then [seconds] else []) ∧
    (∀ (sleepMode : Spark_Sleep_TypeDef) (wakeUpPin edgeTriggerMode param reserved : Nat),
      alarmValues (system_sleep sleepMode 0 param reserved) = [] ∧
      alarmValues (system_sleep_pin wakeUpPin edgeTriggerMode 0 param reserved) = [] ∧
      alarmValues (system_sleep sleepMode (-1) param reserved) = [-1] ∧
      alarmValues (system_sleep_pin wakeUpPin edgeTriggerMode (-1) param reserved) = []) := by
  refine ⟨?_, ?_, ?_⟩
  · intro sleepMode seconds param reserved
    by_cases h : seconds = 0 <;> cases sleepMode <;> simp [system_sleep, h, alarmValues]
  · intro wakeUpPin edgeTriggerMode seconds param reserved
    by_cases h : seconds > 0 <;> simp [system_sleep_pin, h, alarmValues]
  · intro sleepMode wakeUpPin edgeTriggerMode param reserved
    cases sleepMode <;> simp [system_sleep, system_sleep_pin, alarmValues]

/-- Every negative `seconds` makes `system_sleep` set the alarm and
`system_sleep_pin` not set it. -/
theorem alarm_negative_seconds (sleepMode : Spark_Sleep_TypeDef) (seconds : Int)
    (hneg : seconds < 0) (wakeUpPin edgeTriggerMode param reserved : Nat) :
    alarmValues (system_sleep sleepMode seconds param reserved) = [seconds] ∧
    alarmValues (system_sleep_pin wakeUpPin edgeTriggerMode seconds param reserved) = [] := by
  have h0 : seconds ≠ 0 := by omega
  have h1 : ¬ seconds > 0 := by omega
  cases sleepMode <;> simp [system_sleep, system_sleep_pin, h0, h1, alarmValues]

/-! ## Work items: theorems -/

/-- C7: for every item built by `Item(f, a)` with `f` not null, `invoke()`
calls `f` exactly once, with the argument `a`, and leaves every field of the
item as it was; the following `dispose()` calls `free(a)` once; the trace of
`invoke(); dispose()` is `[call f(a), free(a)]`. -/
theorem invoke_then_dispose_direct_call (f a : Nat) (hf : f ≠ NULL) :
    (Item.new_fn f a).invoke = (Item.new_fn f a, [Effect.call f a]) ∧
    (Item.new_fn f a).invoke.1.dispose.2 = [Effect.free a] ∧
    (Item.new_fn f a).invoke_dispose.2 = [Effect.call f a, Effect.free a] := by
  simp [Item.invoke_dispose, Item.invoke, Item.dispose, Item.new_fn, hf]

/-- Witness of C7 at `f = 134221824`, `a = 536871168`. -/
theorem invoke_then_dispose_direct_call_witness :
    (134221824 : Nat) ≠ NULL ∧
    (Item.new_fn 134221824 536871168).invoke =
      (Item.new_fn 134221824 536871168, [Effect.call 134221824 536871168]) ∧
    (Item.new_fn 134221824 536871168).invoke.1.dispose.2 = [Effect.free 536871168] ∧
    (Item.new_fn 134221824 536871168).invoke_dispose.2 =
      [Effect.call 134221824 536871168, Effect.free 536871168] :=
  ⟨by decide, invoke_then_dispose_direct_call 134221824 536871168 (by decide)⟩

/-- C8: for every item, after `dispose()` the function reference and the
argument pointer are both null; a later `invoke()` calls nothing and leaves
the item as it is; a later `dispose()` leaves the item as it is and only calls
`free(NULL)`, which releases no memory. -/
theorem disposed_item_is_inert (item : Item) :
    item.dispose.1.function = NULL ∧
    item.dispose.1.arg = NULL ∧
    item.dispose.1.invoke = (item.dispose.1, []) ∧
    item.dispose.1.dispose = (item.dispose.1, [Effect.free NULL]) ∧
    item.dispose.1.dispose.2.countP Effect.releases = 0 ∧
    item.dispose.1.invoke_dispose.2.countP Effect.releases = 0 := by
  simp [Item.invoke_dispose, Item.invoke, Item.dispose, Effect.releases]

/-- The default-constructed item holds no function: `invoke()` calls nothing
and leaves the item unchanged. -/
theorem default_item_invoke_noop :
    Item.new.function = NULL ∧ Item.new.invoke = (Item.new, []) := by
  simp [Item.new, Item.invoke]

/-- An item built from a task closure calls whatever its storage held in
`function`, when that is not null. -/
theorem task_item_invoke_calls_leftover (indeterminate : Nat) (task : Option Nat) (arg : Nat)
    (h : indeterminate ≠ NULL) :
    (Item.new_task indeterminate task arg).invoke =
      (Item.new_task indeterminate task arg, [Effect.call indeterminate arg]) := by
  simp [Item.new_task, Item.invoke, h]

/-- C9, failing input: the item `Item(task, NULL)` built in storage whose
`function` slot held 536887296 has a `function` that is not null, and
`invoke()` calls through it. -/
theorem task_item_function_not_null :
    (Item.new_task 536887296 (some 1) NULL).function ≠ NULL ∧
    (Item.new_task 536887296 (some 1) NULL).invoke.2 = [Effect.call 536887296 NULL] := by
  decide

/-! ## Native queue: theorems -/

/-- The helper `take` reports an item exactly when the native return code is 0. -/
theorem take_true_iff_zero (rc : Int) (self : ActiveObjectQueue) (item : Item) :
    (self.take rc item).1 = true ↔ rc = 0 := by
  cases hq : self.queue with
  | nil => simp [ActiveObjectQueue.take, os_queue_take, hq]
  | cons first rest =>
    by_cases h : rc = 0 <;> simp [ActiveObjectQueue.take, os_queue_take, hq, h]

/-- Loop invariant of `put`: `k` attempts that return 0 append the item `k`
times, and the first other return code ends the loop. -/
theorem putLoop_zeros (k : Nat) (rc : Int) (hrc : rc ≠ 0) (rest : List Int)
    (queue : List Item) (item : Item) (n : Nat) :
    putLoop (List.replicate k 0 ++ rc :: rest) queue item n =
      some { queue := queue ++ List.replicate k item, attempts := n + k + 1 } := by
  induction k generalizing queue n with
  | zero => simp [putLoop, os_queue_put, hrc]
  | succ k ih =>
    have hstep : putLoop (List.replicate (k + 1) 0 ++ rc :: rest) queue item n =
        putLoop (List.replicate k 0 ++ rc :: rest) (queue ++ [item]) item (n + 1) := by
      simp [List.replicate_succ, putLoop, os_queue_put]
    rw [hstep, ih]
    simp [List.replicate_succ, Nat.add_comm, Nat.add_left_comm]

/-- The loop of `put` goes on through every attempt that returns 0 and
returns at the first attempt that returns another code: after `k` successful
attempts and one failed attempt the item is in the queue `k` times. -/
theorem put_returns_at_first_nonzero (k : Nat) (rc : Int) (hrc : rc ≠ 0) (rest : List Int)
    (self : ActiveObjectQueue) (item : Item) :
    self.put (List.replicate k 0 ++ rc :: rest) item =
      some { queue := self.queue ++ List.replicate k item, attempts := k + 1 } := by
  simp [ActiveObjectQueue.put, putLoop_zeros k rc hrc]

/-- C2, failing inputs: with outcomes `[1, 0]` (a failure, then a success)
`put` returns after the failed first attempt and the queue is unchanged;
with outcomes `[0, 0, 1]` it makes three attempts and the item is enqueued
twice; with outcome `[0]` (success at once) it has not returned. -/
theorem put_repeats_on_success_returns_on_failure (self : ActiveObjectQueue) (item : Item) :
    self.put [1, 0] item = some { queue := self.queue, attempts := 1 } ∧
    self.put [0, 0, 1] item = some { queue := self.queue ++ [item, item], attempts := 3 } ∧
    self.put [0] item = none := by
  simp [ActiveObjectQueue.put, putLoop, os_queue_put]

/-! ## Futures and call-site guards: theorems -/

/-- For every closure, `invoke_future` leaves the active object as it was
(nothing is enqueued) and the future it returns holds `broken_promise`. -/
theorem invoke_future_broken_promise {R : Type} (self : ActiveObjectQueue) (fn : Unit → R) :
    self.invoke_future fn = (SharedState.broken_promise, self) := by
  simp [ActiveObjectQueue.invoke_future, packaged_task.new, packaged_task.destroy]

/-- C1, failing input: for every integer `x` and every active object, the
future returned by `invoke_future` for the closure `x * 2` holds
`broken_promise`, nothing has been enqueued, and `get()` does not deliver
`2 * x`; on a started System thread with handle 1 and a caller with handle 2,
`SYSTEM_THREAD_CONTEXT_SYNC` of `21 * 2` returns the error and not 42. -/
theorem invoke_future_does_not_deliver (self : ActiveObjectQueue) (x : Int) :
    (self.invoke_future (fun _ => x * 2)).1 = SharedState.broken_promise ∧
    (self.invoke_future (fun _ => x * 2)).2 = self ∧
    future_get (self.invoke_future (fun _ => x * 2)).1 = some (Except.error ()) ∧
    future_get (self.invoke_future (fun _ => x * 2)).1 ≠ some (Except.ok (2 * x)) ∧
    (SYSTEM_THREAD_CONTEXT_SYNC
        { configuration := { background_task := none, stack_size := 0 },
          _thread := 1, started := true, queue := [] } 2 (fun _ => (21 : Int) * 2)).1 =
      Control.returned (some (Except.error ())) := by
  simp [SYSTEM_THREAD_CONTEXT_SYNC, ActiveObjectBase.isStarted,
    ActiveObjectBase.isCurrentThread, invoke_future_broken_promise, future_get]

/-- The guard `SYSTEM_THREAD_CONTEXT_SYNC` calls `invoke_future` if and only
if `isStarted()` is true and `isCurrentThread()` is false; when the caller is
the worker thread itself it makes no call on the System thread object and
falls through to the enclosing function body. -/
theorem thread_context_sync_guard_iff {R : Type} (SystemThread : ActiveObjectQueue)
    (current : Nat) (fn : Unit → R) :
    (Op.invoke_future ∈ (SYSTEM_THREAD_CONTEXT_SYNC SystemThread current fn).2.1 ↔
      (SystemThread.isStarted = true ∧ SystemThread.isCurrentThread current = false)) ∧
    SYSTEM_THREAD_CONTEXT_SYNC SystemThread SystemThread._thread fn =
      (Control.fall_through, [], SystemThread) := by
  refine ⟨?_, ?_⟩
  · by_cases hs : SystemThread.isStarted = true <;>
      by_cases hc : SystemThread.isCurrentThread current = true <;>
      simp [SYSTEM_THREAD_CONTEXT_SYNC, hs, hc]
  · simp [SYSTEM_THREAD_CONTEXT_SYNC, ActiveObjectBase.isCurrentThread]

/-- A call of `invoke` with a pointer to a function without parameters, as
`SYSTEM_THREAD_CONTEXT_FN0` is meant to make, selects `invoke(void (*fn)())`. -/
theorem thread_context_fn0_function_pointer :
    SYSTEM_THREAD_CONTEXT_FN0 ArgType.function_pointer_nullary =
      some InvokeOverload.invoke_fn := rfl

/-- C3, failing input: for every state of the System thread object, every
calling thread and every `result`, the expansion of
`SYSTEM_THREAD_CONTEXT_RESULT` is ill-formed, because `invoke(__func__)`
selects no overload of `invoke`; in particular on a started System thread
with worker handle 1 and a caller with handle 2 the guard makes no call of
`invoke`. -/
theorem thread_context_result_ill_formed {R : Type} (SystemThread : ActiveObjectQueue)
    (current : Nat) (result : R) :
    SYSTEM_THREAD_CONTEXT_FN0 ArgType.char_array = none ∧
    SYSTEM_THREAD_CONTEXT_RESULT SystemThread current result = none ∧
    SYSTEM_THREAD_CONTEXT_RESULT
        { configuration := { background_task := none, stack_size := 0 },
          _thread := 1, started := true, queue := [] } 2 result = none := by
  simp [SYSTEM_THREAD_CONTEXT_RESULT, SYSTEM_THREAD_CONTEXT_FN0, invoke_overload]

end Firmware
